import Mathlib

/-!
Verification development for the gifify repository (gifify.py + webui.py):
a video/image-sequence → GIF conversion pipeline exposed as a CLI and as a
local drag-and-drop HTTP service.

Shallow embedding notes:
* `build_filter` (gifify.py lines 44–78) is a pure string builder; it is
  embedded directly.  Its Python `fps` argument is a float that is rendered
  into the string with an f-string; the embedding takes the rendered decimal
  text (e.g. `"12.0"` for the Python float `12.0`) as a `String` parameter,
  so no floating-point arithmetic is modelled (none occurs in the source:
  the float is only formatted).
* `make_gif` (gifify.py lines 113–196) spawns external processes and touches
  the filesystem; it is embedded as a function from an environment record
  (availability of the optimizer binary, child exit codes, whether the
  processor run left a file at its output target, whether the unlink raises)
  to an outcome record (exit/success, which children ran, final existence of
  the temporary output file).
* The option resolution of webui.py's `_handle_convert` (query string
  defaults, multipart form overrides, and the clamps applied at the
  `make_gif` call site, lines 104–114, 156–170 and 194–195) is embedded for
  the fields the claims are about: `max_width`, `colors` and `dither`.
* Python's `int(...)` on a string is modelled by `pyInt` (optional
  whitespace, optional sign, decimal digits).
-/

set_option maxRecDepth 8000

/-- First index (0-based) at which `needle` occurs as a contiguous sublist of
`hay`, if any.  Used to state occurrence and relative order of filter stages
inside a filter-graph expression. -/
def occIdxL (needle : List Char) : List Char → Option Nat
  | [] => if needle = [] then some 0 else none
  | c :: t =>
    if needle.isPrefixOf (c :: t) then some 0
    else match occIdxL needle t with
      | some i => some (i + 1)
      | none => none

/-- String version of `occIdxL`. -/
def occIdx (needle hay : String) : Option Nat :=
  occIdxL needle.toList hay.toList

/-- gifify.py lines 45–52: the `parts` list of filter stages — always the
frame-rate stage `fps=...`, then, only when a maximum width is present, the
scale stage `scale='min(iw,W)':-1:flags=lanczos`. -/
def build_parts (fps : String) (max_width : Option Int) : List String :=
  match max_width with
  | some w => ["fps=" ++ fps, "scale=\x27min(iw," ++ toString w ++ ")\x27:-1:flags=lanczos"]
  | none => ["fps=" ++ fps]

/-- gifify.py lines 61–70: the dither keyword selected for `paletteuse`.
Any string other than the three explicitly tested ones falls through to the
default `sierra2_4a`. -/
def dither_opt (dither : String) : String :=
  if dither = "none" then "dither=none"
  else if dither = "bayer" then "dither=bayer:bayer_scale=5"
  else if dither = "floyd_steinberg" then "dither=floyd_steinberg"
  else "dither=sierra2_4a"

/-- gifify.py lines 44–78 (`build_filter`): join the stage parts with commas,
then append the split / palettegen / paletteuse branch structure. -/
def build_filter (fps : String) (max_width : Option Int) (colors : Int)
    (dither : String) : String :=
  let parts := build_parts fps max_width
  let core := String.intercalate "," parts
  let palettegen := "[s0]palettegen=stats_mode=diff:max_colors=" ++ toString colors ++ "[p]"
  let paletteuse := "[s1][p]paletteuse=" ++ dither_opt dither
  if core ≠ "" then core ++ ",split[s0][s1];" ++ palettegen ++ ";" ++ paletteuse
  else "split[s0][s1];" ++ palettegen ++ ";" ++ paletteuse

/-- C1: with fps rendered as `12.0`, maxWidth 480, 256 colors and the
sierra2_4a dither, the built filter-graph expression contains the frame-rate
stage (the text `fps=12`), the width-bounded scale stage
`scale='min(iw,480)'` with the lanczos kernel, and the palettegen /
paletteuse pair with `dither=sierra2_4a`, in that order (strictly increasing
first-occurrence indices). -/
theorem build_filter_c1_stage_order :
    ∃ a b b2 c d,
      occIdx "fps=12" (build_filter "12.0" (some 480) 256 "sierra2_4a") = some a ∧
      occIdx "scale=\x27min(iw,480)\x27" (build_filter "12.0" (some 480) 256 "sierra2_4a") = some b ∧
      occIdx "flags=lanczos" (build_filter "12.0" (some 480) 256 "sierra2_4a") = some b2 ∧
      occIdx "palettegen" (build_filter "12.0" (some 480) 256 "sierra2_4a") = some c ∧
      occIdx "paletteuse=dither=sierra2_4a" (build_filter "12.0" (some 480) 256 "sierra2_4a") = some d ∧
      a < b ∧ b < b2 ∧ b2 < c ∧ c < d := by
  refine ⟨0, 9, 32, 64, 116, ?_, ?_, ?_, ?_, ?_, ?_, ?_, ?_, ?_⟩ <;> decide

/-- C10: `build_filter` is total over arbitrary dither strings, and every
string other than the three explicitly tested ones (`none`, `bayer`,
`floyd_steinberg`) is silently mapped to the default `dither=sierra2_4a`
keyword — the built expression is identical to the one built for
`sierra2_4a`. -/
theorem build_filter_default_dither (d : String)
    (h1 : d ≠ "none") (h2 : d ≠ "bayer") (h3 : d ≠ "floyd_steinberg") :
    dither_opt d = "dither=sierra2_4a" ∧
    ∀ fps mw colors, build_filter fps mw colors d = build_filter fps mw colors "sierra2_4a" := by
  have hd : dither_opt d = "dither=sierra2_4a" := by
    simp only [dither_opt, if_neg h1, if_neg h2, if_neg h3]
  have hs : dither_opt "sierra2_4a" = "dither=sierra2_4a" := by decide
  exact ⟨hd, fun fps mw colors => by simp only [build_filter, hd, hs]⟩

/-- Witness for C10 at the concrete unrecognized dither string `garbage42`. -/
theorem build_filter_default_dither_witness :
    dither_opt "garbage42" = "dither=sierra2_4a" ∧
    build_filter "12.0" (some 480) 256 "garbage42" =
      build_filter "12.0" (some 480) 256 "sierra2_4a" := by
  have h := build_filter_default_dither "garbage42" (by decide) (by decide) (by decide)
  exact ⟨h.1, h.2 "12.0" (some 480) 256⟩

/-- Decimal value of a digit list (helper for `pyInt`). -/
def digitsVal (l : List Char) : Nat :=
  l.foldl (fun a c => a * 10 + (c.toNat - 48)) 0

/-- Python's `int(...)` applied to a string, as used by webui.py on option
fields: optional surrounding whitespace, an optional single sign, then one
or more decimal digits; anything else raises `ValueError`, modelled as
`none`.  (Python's underscore digit separators are not modelled; no claim
involves them.) -/
def pyInt (s : String) : Option Int :=
  match ((s.toList.dropWhile Char.isWhitespace).reverse.dropWhile Char.isWhitespace).reverse with
  | [] => none
  | '-' :: rest =>
    if rest ≠ [] ∧ rest.all Char.isDigit then some (-(digitsVal rest : Int)) else none
  | '+' :: rest =>
    if rest ≠ [] ∧ rest.all Char.isDigit then some ((digitsVal rest : Int)) else none
  | l =>
    if l.all Char.isDigit then some ((digitsVal l : Int)) else none

/-- The resolved option fields the claims are about, as they are passed to
`make_gif` by webui.py lines 194–197 and gifify.py lines 248–250. -/
structure ResolvedOpts where
  max_width : Option Int
  colors : Int
  dither : String
  deriving DecidableEq

/-- The normalization applied at both `make_gif` call sites (webui.py lines
194–195, gifify.py lines 248–249): `None if max_width <= 0 else max_width`
and `max(2, min(256, colors))`; the dither string is passed through. -/
def mkResolved (max_width colors : Int) (dither : String) : ResolvedOpts :=
  { max_width := if max_width ≤ 0 then none else some max_width,
    colors := max 2 (min 256 colors),
    dither := dither }

/-- webui.py lines 100–101 (`qget`): the first value carried by a query-string
key, else the default. -/
def qgetD (q : List (String × String)) (name dflt : String) : String :=
  match q.find? (fun p => p.fst == name) with
  | some p => p.snd
  | none => dflt

/-- webui.py lines 156–159 (`get`): a multipart form field wins when it is
present and non-empty, otherwise the (query-derived) default applies. -/
def formGet (fs : List (String × String)) (name dflt : String) : String :=
  match fs.find? (fun p => p.fst == name) with
  | some p => if p.snd = "" then dflt else p.snd
  | none => dflt

/-- webui.py `_handle_convert` option resolution for the fields `max_width`,
`colors` and `dither` (lines 104–107: query-string values with documented
defaults; lines 160–163: multipart form overrides; lines 194–195: the clamps
at the `make_gif` call).  `form` is `none` for a raw
`application/octet-stream` upload and `some fs` for a `multipart/form-data`
body.  An unparseable numeric field is the uncaught `int(...)` `ValueError`,
modelled as `Except.error`. -/
def httpResolve (q : List (String × String))
    (form : Option (List (String × String))) : Except String ResolvedOpts :=
  match pyInt (qgetD q "max_width" "480") with
  | none => .error "invalid int: max_width"
  | some mw0 =>
    match pyInt (qgetD q "colors" "256") with
    | none => .error "invalid int: colors"
    | some c0 =>
      match form with
      | none => .ok (mkResolved mw0 c0 (qgetD q "dither" "sierra2_4a"))
      | some fs =>
        match pyInt (formGet fs "max_width" (toString mw0)) with
        | none => .error "invalid int: max_width"
        | some mw1 =>
          match pyInt (formGet fs "colors" (toString c0)) with
          | none => .error "invalid int: colors"
          | some c1 =>
            .ok (mkResolved mw1 c1 (formGet fs "dither" (qgetD q "dither" "sierra2_4a")))

/-- gifify.py lines 206–211: the four `--dither` values accepted by the CLI
argument parser. -/
def cliDitherChoices : List String := ["sierra2_4a", "bayer", "floyd_steinberg", "none"]

/-- CLI option resolution: argparse rejects a `--dither` value outside
`cliDitherChoices` with a usage error (exit status 2); otherwise `main`
(gifify.py lines 248–249) normalizes max-width and clamps colors at the
`make_gif` call. -/
def cliResolve (max_width colors : Int) (dither : String) : Except Nat ResolvedOpts :=
  if dither ∈ cliDitherChoices then .ok (mkResolved max_width colors dither)
  else .error 2

/-- C4: when a multipart form carries a non-empty `colors` field, it wins
over the query-string value and is then clamped to [2,256].  The hypotheses
say that the query-side numeric fields and the form's max-width field parse
(otherwise the handler raises before reaching the clamp). -/
theorem http_form_colors_override (q fs : List (String × String)) (v : String)
    (n mw0 c0 mw1 : Int)
    (hq1 : pyInt (qgetD q "max_width" "480") = some mw0)
    (hq2 : pyInt (qgetD q "colors" "256") = some c0)
    (hf : fs.find? (fun p => p.fst == "colors") = some ("colors", v))
    (hv : v ≠ "") (hn : pyInt v = some n)
    (hmw : pyInt (formGet fs "max_width" (toString mw0)) = some mw1) :
    ∃ r, httpResolve q (some fs) = .ok r ∧ r.colors = max 2 (min 256 n) := by
  have hfg : formGet fs "colors" (toString c0) = v := by
    simp only [formGet, hf, if_neg hv]
  refine ⟨mkResolved mw1 n (formGet fs "dither" (qgetD q "dither" "sierra2_4a")), ?_, rfl⟩
  simp only [httpResolve, hq1, hq2, hmw, hfg, hn]

/-- Witness for C4 at the claim's concrete instance: query `colors=100`,
multipart form `colors=300`, resolved colorCount 256. -/
theorem http_form_colors_override_witness :
    ∃ r, httpResolve [("colors", "100")] (some [("colors", "300")]) = Except.ok r ∧
      r.colors = 256 := by
  obtain ⟨r, h1, h2⟩ := http_form_colors_override [("colors", "100")] [("colors", "300")]
    "300" 300 480 100 480 (by decide) (by decide) (by decide) (by decide) (by decide) (by decide)
  refine ⟨r, h1, ?_⟩
  rw [h2]
  decide

/-- C6: on both the CLI path and the HTTP path, every successfully resolved
colors value lies in [2,256]; any above-range input resolves to 256 and any
below-range input to 2. -/
theorem colors_clamped_both_paths :
    (∀ (mw c : Int) (d : String) (r : ResolvedOpts),
      cliResolve mw c d = .ok r → r.colors = max 2 (min 256 c) ∧ 2 ≤ r.colors ∧ r.colors ≤ 256) ∧
    (∀ q form r, httpResolve q form = .ok r → 2 ≤ r.colors ∧ r.colors ≤ 256) ∧
    (∀ (mw c : Int) (d : String), 256 < c → (mkResolved mw c d).colors = 256) ∧
    (∀ (mw c : Int) (d : String), c < 2 → (mkResolved mw c d).colors = 2) := by
  have hrange : ∀ (mw c : Int) (d : String),
      2 ≤ (mkResolved mw c d).colors ∧ (mkResolved mw c d).colors ≤ 256 := by
    intro mw c d
    simp only [mkResolved]
    omega
  refine ⟨?_, ?_, ?_, ?_⟩
  · intro mw c d r h
    unfold cliResolve at h
    split at h
    · injection h with h
      subst h
      exact ⟨rfl, hrange mw c d⟩
    · cases h
  · intro q form r h
    unfold httpResolve at h
    repeat' split at h
    all_goals cases h
    all_goals apply hrange
  · intro mw c d h
    simp only [mkResolved]
    omega
  · intro mw c d h
    simp only [mkResolved]
    omega

/-- Witness for C6: CLI input 1000 resolves to 256 and stays in range; an
HTTP query `colors=0` resolves in range, to 2. -/
theorem colors_clamped_both_paths_witness :
    (∃ r, cliResolve 480 1000 "sierra2_4a" = Except.ok r ∧
      r.colors = 256 ∧ 2 ≤ r.colors ∧ r.colors ≤ 256) ∧
    (∃ r, httpResolve [("colors", "0")] none = Except.ok r ∧
      r.colors = 2 ∧ 2 ≤ r.colors ∧ r.colors ≤ 256) := by
  have h := colors_clamped_both_paths
  constructor
  · refine ⟨mkResolved 480 1000 "sierra2_4a", ?_⟩
    have hok : cliResolve 480 1000 "sierra2_4a" = Except.ok (mkResolved 480 1000 "sierra2_4a") := rfl
    have h2 := h.1 480 1000 "sierra2_4a" _ hok
    refine ⟨hok, ?_, h2.2.1, h2.2.2⟩
    rw [h2.1]
    decide
  · refine ⟨mkResolved 480 0 "sierra2_4a", ?_⟩
    have hok : httpResolve [("colors", "0")] none = Except.ok (mkResolved 480 0 "sierra2_4a") := rfl
    have h2 := h.2.1 _ _ _ hok
    have h3 := h.2.2.2 480 0 "sierra2_4a" (by decide)
    exact ⟨hok, h3, h2.1, h2.2⟩

/-- Helper: the frame-rate stage string is never empty, so `build_filter`
always takes the comma-joined branch. -/
theorem fps_part_ne_empty (fps : String) : ("fps=" ++ fps) ≠ "" := by
  intro h
  have h2 := congrArg String.length h
  rw [String.length_append] at h2
  have h3 : "fps=".length = 4 := rfl
  have h4 : ("" : String).length = 0 := rfl
  rw [h3, h4] at h2
  omega

/-- C7: a supplied maxWidth ≤ 0 resolves to an unset max width on both the
CLI and the HTTP path (both feed `mkResolved`), and with an unset max width
`build_filter` emits no scale stage: the parts list holds only the
frame-rate stage, and the built expression is exactly the frame-rate stage
followed by the split / palettegen / paletteuse branches. -/
theorem maxwidth_unset_no_scale (mw : Int) (hmw : mw ≤ 0) :
    (∀ (c : Int) (d : String), (mkResolved mw c d).max_width = none) ∧
    (∀ (c : Int) (d : String), d ∈ cliDitherChoices →
      cliResolve mw c d = .ok (mkResolved mw c d)) ∧
    (∀ fps, build_parts fps none = ["fps=" ++ fps]) ∧
    (∀ fps (c : Int) (d : String), build_filter fps none c d =
      ("fps=" ++ fps) ++ ",split[s0][s1];" ++
        ("[s0]palettegen=stats_mode=diff:max_colors=" ++ toString c ++ "[p]") ++ ";" ++
        ("[s1][p]paletteuse=" ++ dither_opt d)) := by
  refine ⟨?_, ?_, ?_, ?_⟩
  · intro c d
    simp only [mkResolved, if_pos hmw]
  · intro c d hd
    simp only [cliResolve, if_pos hd]
  · intro fps
    rfl
  · intro fps c d
    have hcore : String.intercalate "," (build_parts fps none) = "fps=" ++ fps := rfl
    simp only [build_filter]
    rw [hcore, if_pos (fps_part_ne_empty fps)]

/-- Witness for C7 at maxWidth 0 (HTTP-style) and −3 (CLI-style). -/
theorem maxwidth_unset_no_scale_witness :
    (mkResolved 0 256 "sierra2_4a").max_width = none ∧
    cliResolve (-3) 256 "sierra2_4a" = Except.ok (mkResolved (-3) 256 "sierra2_4a") ∧
    build_parts "12.0" none = ["fps=" ++ "12.0"] ∧
    build_filter "12.0" none 256 "sierra2_4a" =
      ("fps=" ++ "12.0") ++ ",split[s0][s1];" ++
        ("[s0]palettegen=stats_mode=diff:max_colors=" ++ toString (256 : Int) ++ "[p]") ++ ";" ++
        ("[s1][p]paletteuse=" ++ dither_opt "sierra2_4a") := by
  have h0 := maxwidth_unset_no_scale 0 (by decide)
  have h3 := maxwidth_unset_no_scale (-3) (by decide)
  exact ⟨h0.1 256 "sierra2_4a", h3.2.1 256 "sierra2_4a" (by decide),
    h0.2.2.1 "12.0", h0.2.2.2 "12.0" 256 "sierra2_4a"⟩

/-- C5 counterexample: the claim says every request (CLI or HTTP) with an
unrecognized ditherMode fails option resolution, but on the HTTP path the
value `bogus` — not one of the four recognized choices — resolves
successfully and is passed straight through. -/
theorem http_dither_unvalidated_cex :
    ("bogus" ∉ cliDitherChoices) ∧
    httpResolve [("dither", "bogus")] none = Except.ok (mkResolved 480 256 "bogus") ∧
    (mkResolved 480 256 "bogus").dither = "bogus" := by
  exact ⟨by decide, rfl, rfl⟩

/-- C5 amended: only the CLI path rejects an unrecognized dither value (a
usage error, exit status 2); the HTTP path performs no dither validation —
resolution succeeds with the unrecognized string passed through, and
`build_filter` then silently maps it to the default sierra2_4a keyword. -/
theorem dither_validation_cli_only (d : String) (hd : d ∉ cliDitherChoices) :
    (∀ (mw c : Int), cliResolve mw c d = .error 2) ∧
    (∀ q (mw0 c0 : Int),
      pyInt (qgetD (("dither", d) :: q) "max_width" "480") = some mw0 →
      pyInt (qgetD (("dither", d) :: q) "colors" "256") = some c0 →
      httpResolve (("dither", d) :: q) none = .ok (mkResolved mw0 c0 d)) ∧
    (∀ fps mw (c : Int), build_filter fps mw c d = build_filter fps mw c "sierra2_4a") := by
  have h1 : d ≠ "none" := fun h => hd (by rw [h]; decide)
  have h2 : d ≠ "bayer" := fun h => hd (by rw [h]; decide)
  have h3 : d ≠ "floyd_steinberg" := fun h => hd (by rw [h]; decide)
  refine ⟨?_, ?_, ?_⟩
  · intro mw c
    simp only [cliResolve, if_neg hd]
  · intro q mw0 c0 hq1 hq2
    have hd0 : qgetD (("dither", d) :: q) "dither" "sierra2_4a" = d := rfl
    simp only [httpResolve, hq1, hq2, hd0]
  · intro fps mw c
    have hd4 : dither_opt d = "dither=sierra2_4a" := by
      simp only [dither_opt, if_neg h1, if_neg h2, if_neg h3]
    have hs : dither_opt "sierra2_4a" = "dither=sierra2_4a" := by decide
    simp only [build_filter, hd4, hs]

/-- Witness for the amended C5 at the concrete unrecognized value `bogus2`. -/
theorem dither_validation_cli_only_witness :
    cliResolve 480 256 "bogus2" = Except.error 2 ∧
    httpResolve [("dither", "bogus2")] none = Except.ok (mkResolved 480 256 "bogus2") ∧
    build_filter "12.0" (some 480) 256 "bogus2" =
      build_filter "12.0" (some 480) 256 "sierra2_4a" := by
  have h := dither_validation_cli_only "bogus2" (by decide)
  exact ⟨h.1 480 256, h.2.1 [] 480 256 rfl rfl, h.2.2 "12.0" (some 480) 256⟩

/-- Which child process wrote the file delivered at the requested output
path. -/
inductive ArtifactSource
  | processor
  | optimizer
  deriving DecidableEq

/-- Termination of `make_gif`: normal completion (with or without the
optimizer-skipped warning of gifify.py line 180) or `sys.exit(code)`. -/
inductive MakeGifOutcome
  | success (warnedSkip : Bool)
  | exitCode (code : Int)
  deriving DecidableEq

/-- External-world parameters of one `make_gif` job: whether the optimizer
binary is discoverable (gifify.py line 131), whether a file already sits at
the direct-output target before the run (line 141), the two child exit codes
(lines 172, 185), whether the processor run leaves a file at its output
target (ffmpeg may write a partial file before failing), and whether the
`tmp_out.unlink` call raises (line 192). -/
structure MakeGifEnv where
  gifsicleAvailable : Bool
  tmpPreexists : Bool
  ffmpegExit : Int
  ffmpegCreatesOutput : Bool
  gifsicleExit : Int
  unlinkRaises : Bool
  deriving DecidableEq

/-- Observable result of one `make_gif` job.  `usesSeparateTmp` says whether
the direct-output target `tmp_out` is a separate temporary path (gifify.py
lines 135–138: only when optimize is requested and the optimizer binary is
available); `tmpOutExists` is whether a file sits at `tmp_out` when the call
ends. -/
structure MakeGifRun where
  outcome : MakeGifOutcome
  ranFfmpeg : Bool
  ranGifsicle : Bool
  usesSeparateTmp : Bool
  tmpOutExists : Bool
  artifactSource : Option ArtifactSource
  deriving DecidableEq

/-- gifify.py lines 113–196 (`make_gif`), control flow and
temporary-file lifecycle:
* line 131: the optimizer binary is looked up only when `optimize`;
* lines 135–138: `tmp_out` is a separate `.tmp.gif` path only when
  `optimize` and the binary was found, else it is the output path itself;
* lines 141–143: an existing `tmp_out` without overwrite exits with code 1;
* lines 146–175: the processor runs; a non-zero exit propagates as
  `sys.exit(code)` with no cleanup of `tmp_out`;
* lines 178–180: with `optimize` but no binary, a warning is printed and the
  optimizer step is skipped;
* lines 182–188: otherwise the optimizer reads `tmp_out` and writes the
  output path; a non-zero exit propagates as `sys.exit(code)`;
* lines 190–194: on optimizer success `tmp_out` is unlinked inside
  `try/except pass`, so a raising unlink is swallowed and leaves the file. -/
def make_gif (optimize overwrite : Bool) (env : MakeGifEnv) : MakeGifRun :=
  let separate := optimize && env.gifsicleAvailable
  if env.tmpPreexists && !overwrite then
    { outcome := .exitCode 1, ranFfmpeg := false, ranGifsicle := false,
      usesSeparateTmp := separate, tmpOutExists := env.tmpPreexists, artifactSource := none }
  else
    if env.ffmpegExit ≠ 0 then
      { outcome := .exitCode env.ffmpegExit, ranFfmpeg := true, ranGifsicle := false,
        usesSeparateTmp := separate, tmpOutExists := env.ffmpegCreatesOutput,
        artifactSource := none }
    else
      if optimize then
        if !env.gifsicleAvailable then
          { outcome := .success true, ranFfmpeg := true, ranGifsicle := false,
            usesSeparateTmp := separate, tmpOutExists := env.ffmpegCreatesOutput,
            artifactSource := some .processor }
        else
          if env.gifsicleExit ≠ 0 then
            { outcome := .exitCode env.gifsicleExit, ranFfmpeg := true, ranGifsicle := true,
              usesSeparateTmp := separate, tmpOutExists := env.ffmpegCreatesOutput,
              artifactSource := none }
          else
            { outcome := .success false, ranFfmpeg := true, ranGifsicle := true,
              usesSeparateTmp := separate,
              tmpOutExists := if env.unlinkRaises then env.ffmpegCreatesOutput else false,
              artifactSource := some .optimizer }
      else
        { outcome := .success false, ranFfmpeg := true, ranGifsicle := false,
          usesSeparateTmp := separate, tmpOutExists := env.ffmpegCreatesOutput,
          artifactSource := some .processor }

/-- C2 counterexample: a job with optimize requested, the optimizer
available, and a processor run that exits 1 after writing a partial file.
The pipeline aborts with code 1 and the optimizer never runs, but a leftover
file remains at the separate temporary output path — `make_gif` performs no
cleanup on this path, so the claim's "no leftover temporary output file
remains on disk" is false. -/
theorem ffmpeg_failure_leftover_cex :
    (make_gif true true
      { gifsicleAvailable := true, tmpPreexists := false, ffmpegExit := 1,
        ffmpegCreatesOutput := true, gifsicleExit := 0, unlinkRaises := false }) =
    { outcome := .exitCode 1, ranFfmpeg := true, ranGifsicle := false,
      usesSeparateTmp := true, tmpOutExists := true, artifactSource := none } := by
  decide

/-- C2 amended: whenever the processor invocation exits non-zero (and the
job was not already refused by the pre-existing-output check), `make_gif`
aborts with exactly the child's exit code, the optimizer step never runs,
and no cleanup is performed — a file is left at the direct-output target iff
the failed processor run created one. -/
theorem ffmpeg_failure_aborts (optimize overwrite : Bool) (env : MakeGifEnv)
    (hpre : ¬(env.tmpPreexists = true ∧ overwrite = false))
    (hfail : env.ffmpegExit ≠ 0) :
    (make_gif optimize overwrite env).outcome = .exitCode env.ffmpegExit ∧
    (make_gif optimize overwrite env).ranGifsicle = false ∧
    (make_gif optimize overwrite env).tmpOutExists = env.ffmpegCreatesOutput := by
  have hcond : (env.tmpPreexists && !overwrite) = false := by
    cases hp : env.tmpPreexists <;> cases ho : overwrite <;> simp_all
  simp only [make_gif, hcond, Bool.false_eq_true, if_false, if_pos hfail]
  exact ⟨trivial, trivial, trivial⟩

/-- Witness for the amended C2: processor exit code 3, no partial output. -/
theorem ffmpeg_failure_aborts_witness :
    (make_gif false true
      { gifsicleAvailable := false, tmpPreexists := false, ffmpegExit := 3,
        ffmpegCreatesOutput := false, gifsicleExit := 0, unlinkRaises := false }).outcome
      = .exitCode 3 ∧
    (make_gif false true
      { gifsicleAvailable := false, tmpPreexists := false, ffmpegExit := 3,
        ffmpegCreatesOutput := false, gifsicleExit := 0, unlinkRaises := false }).ranGifsicle
      = false ∧
    (make_gif false true
      { gifsicleAvailable := false, tmpPreexists := false, ffmpegExit := 3,
        ffmpegCreatesOutput := false, gifsicleExit := 0, unlinkRaises := false }).tmpOutExists
      = false := by
  exact ffmpeg_failure_aborts false true
    { gifsicleAvailable := false, tmpPreexists := false, ffmpegExit := 3,
      ffmpegCreatesOutput := false, gifsicleExit := 0, unlinkRaises := false }
    (by simp) (by decide)

/-- C3: with optimize requested but the optimizer binary unavailable and a
successful processor run, `make_gif` succeeds with only the non-fatal
skip warning, the optimizer never runs, no separate temporary path was used
(the processor wrote directly to the requested output path), and the
delivered artifact is the processor's direct output. -/
theorem optimizer_unavailable_degrades (overwrite : Bool) (env : MakeGifEnv)
    (hgs : env.gifsicleAvailable = false)
    (hpre : ¬(env.tmpPreexists = true ∧ overwrite = false))
    (hok : env.ffmpegExit = 0) :
    (make_gif true overwrite env).outcome = .success true ∧
    (make_gif true overwrite env).ranGifsicle = false ∧
    (make_gif true overwrite env).usesSeparateTmp = false ∧
    (make_gif true overwrite env).artifactSource = some .processor := by
  have hcond : (env.tmpPreexists && !overwrite) = false := by
    cases hp : env.tmpPreexists <;> cases ho : overwrite <;> simp_all
  have hnf : ¬(env.ffmpegExit ≠ 0) := by rw [hok]; simp
  simp only [make_gif, hcond, Bool.false_eq_true, if_false, if_neg hnf, if_pos, hgs]
  exact ⟨rfl, rfl, by simp, rfl⟩

/-- Witness for C3. -/
theorem optimizer_unavailable_degrades_witness :
    (make_gif true true
      { gifsicleAvailable := false, tmpPreexists := false, ffmpegExit := 0,
        ffmpegCreatesOutput := true, gifsicleExit := 0, unlinkRaises := false }).outcome
      = .success true ∧
    (make_gif true true
      { gifsicleAvailable := false, tmpPreexists := false, ffmpegExit := 0,
        ffmpegCreatesOutput := true, gifsicleExit := 0, unlinkRaises := false }).ranGifsicle
      = false ∧
    (make_gif true true
      { gifsicleAvailable := false, tmpPreexists := false, ffmpegExit := 0,
        ffmpegCreatesOutput := true, gifsicleExit := 0, unlinkRaises := false }).usesSeparateTmp
      = false ∧
    (make_gif true true
      { gifsicleAvailable := false, tmpPreexists := false, ffmpegExit := 0,
        ffmpegCreatesOutput := true, gifsicleExit := 0, unlinkRaises := false }).artifactSource
      = some .processor := by
  exact optimizer_unavailable_degrades true
    { gifsicleAvailable := false, tmpPreexists := false, ffmpegExit := 0,
      ffmpegCreatesOutput := true, gifsicleExit := 0, unlinkRaises := false }
    rfl (by simp) rfl

/-- C8 counterexample: the optimizer runs and exits zero, but the unlink of
the intermediate temporary path raises; the exception is swallowed (the job
still succeeds) and the temporary file still exists on disk — contradicting
the claim's "it no longer exists on disk". -/
theorem unlink_failure_file_remains_cex :
    (make_gif true true
      { gifsicleAvailable := true, tmpPreexists := false, ffmpegExit := 0,
        ffmpegCreatesOutput := true, gifsicleExit := 0, unlinkRaises := true }) =
    { outcome := .success false, ranFfmpeg := true, ranGifsicle := true,
      usesSeparateTmp := true, tmpOutExists := true,
      artifactSource := some .optimizer } := by
  decide

/-- C8 amended: when the optimizer step runs and exits zero, the job
succeeds with the optimizer's output as the delivered artifact regardless of
whether the deletion of the intermediate temporary path fails (the failure
is swallowed and never changes the outcome); the temporary file no longer
exists afterwards provided the deletion does not raise. -/
theorem optimizer_success_cleanup (overwrite : Bool) (env : MakeGifEnv)
    (hgs : env.gifsicleAvailable = true)
    (hpre : ¬(env.tmpPreexists = true ∧ overwrite = false))
    (hf : env.ffmpegExit = 0) (hg : env.gifsicleExit = 0) :
    (make_gif true overwrite env).outcome = .success false ∧
    (make_gif true overwrite env).ranGifsicle = true ∧
    (make_gif true overwrite env).usesSeparateTmp = true ∧
    (make_gif true overwrite env).artifactSource = some .optimizer ∧
    (env.unlinkRaises = false → (make_gif true overwrite env).tmpOutExists = false) := by
  have hcond : (env.tmpPreexists && !overwrite) = false := by
    cases hp : env.tmpPreexists <;> cases ho : overwrite <;> simp_all
  have hnf : ¬(env.ffmpegExit ≠ 0) := by rw [hf]; simp
  have hng : ¬(env.gifsicleExit ≠ 0) := by rw [hg]; simp
  simp only [make_gif, hcond, Bool.false_eq_true, if_false, if_neg hnf, if_neg hng, hgs]
  refine ⟨by simp, by simp, by simp, by simp, ?_⟩
  intro hu
  simp [hu]

/-- Witness for the amended C8: a clean unlink deletes the temporary file. -/
theorem optimizer_success_cleanup_witness :
    (make_gif true true
      { gifsicleAvailable := true, tmpPreexists := false, ffmpegExit := 0,
        ffmpegCreatesOutput := true, gifsicleExit := 0, unlinkRaises := false }).outcome
      = .success false ∧
    (make_gif true true
      { gifsicleAvailable := true, tmpPreexists := false, ffmpegExit := 0,
        ffmpegCreatesOutput := true, gifsicleExit := 0, unlinkRaises := false }).ranGifsicle
      = true ∧
    (make_gif true true
      { gifsicleAvailable := true, tmpPreexists := false, ffmpegExit := 0,
        ffmpegCreatesOutput := true, gifsicleExit := 0, unlinkRaises := false }).tmpOutExists
      = false := by
  have h := optimizer_success_cleanup true
    { gifsicleAvailable := true, tmpPreexists := false, ffmpegExit := 0,
      ffmpegCreatesOutput := true, gifsicleExit := 0, unlinkRaises := false }
    rfl (by simp) rfl rfl
  exact ⟨h.1, h.2.1, h.2.2.2.2 rfl⟩

/-- webui.py line 127: the read size bound, 1 MiB. -/
def chunkLimit : Nat := 1024 * 1024

/-- webui.py lines 125–131: the raw-upload receive loop.  `remaining` is the
declared content length still to be read and `avail` the number of body
bytes the socket will still deliver; each iteration asks for
`min(remaining, 1 MiB)` bytes, receives at most what is available, stops on
an empty read, and otherwise writes the chunk and decrements both counters.
The result is the list of written chunk sizes. -/
def recvChunks (remaining avail : Nat) : List Nat :=
  if hr : remaining = 0 then []
  else
    if hc : min (min remaining chunkLimit) avail = 0 then []
    else
      min (min remaining chunkLimit) avail ::
        recvChunks (remaining - min (min remaining chunkLimit) avail)
          (avail - min (min remaining chunkLimit) avail)
termination_by remaining
decreasing_by
  simp only [chunkLimit] at hc ⊢
  omega

/-- Helper for C9: when the body supplies at least the declared length, the
loop writes exactly the declared number of bytes in total. -/
theorem recvChunks_sum_eq : ∀ (remaining avail : Nat), remaining ≤ avail →
    (recvChunks remaining avail).sum = remaining := by
  intro remaining
  induction remaining using Nat.strong_induction_on with
  | _ n ih =>
    intro avail h
    rw [recvChunks]
    split
    · simp only [List.sum_nil]
      omega
    · split
      · exfalso
        simp only [chunkLimit] at *
        omega
      · rename_i hr hc
        simp only [List.sum_cons]
        rw [ih (n - min (min n chunkLimit) avail) (by simp only [chunkLimit] at *; omega)
          (avail - min (min n chunkLimit) avail) (by omega)]
        omega

/-- Helper for C9: every written chunk is non-empty and at most 1 MiB. -/
theorem recvChunks_mem_bounds : ∀ (remaining avail : Nat),
    ∀ c ∈ recvChunks remaining avail, 0 < c ∧ c ≤ chunkLimit := by
  intro remaining
  induction remaining using Nat.strong_induction_on with
  | _ n ih =>
    intro avail c hc
    rw [recvChunks] at hc
    split at hc
    · cases hc
    · split at hc
      · cases hc
      · rename_i hr hc0
        rcases List.mem_cons.mp hc with h | h
        · subst h
          constructor
          · omega
          · simp only [chunkLimit] at *
            omega
        · exact ih (n - min (min n chunkLimit) avail)
            (by simp only [chunkLimit] at *; omega) _ c h

/-- Result of the `application/octet-stream` branch of `_handle_convert`. -/
inductive RawOutcome
  | badRequest
  | received (chunks : List Nat)
  deriving DecidableEq

/-- webui.py lines 118–132: the raw-binary upload branch — a non-positive
declared Content-Length is answered with HTTP 400 (`badRequest`) before any
temp file is created; otherwise the body is streamed into the temp file by
the bounded-chunk loop `recvChunks`. -/
def rawUpload (length : Int) (avail : Nat) : RawOutcome :=
  if length ≤ 0 then .badRequest
  else .received (recvChunks length.toNat avail)

/-- C9: a raw-binary upload with declared positive Content-Length N whose
body supplies at least N bytes is streamed to the temp file in bounded
chunks totalling exactly N bytes (each chunk non-empty and at most 1 MiB);
a missing or non-positive declared length yields a client error with no
temp file created. -/
theorem raw_upload_exact_bytes :
    (∀ (length : Int) (avail : Nat), length ≤ 0 → rawUpload length avail = .badRequest) ∧
    (∀ (length : Int) (avail : Nat), 0 < length → length.toNat ≤ avail →
      rawUpload length avail = .received (recvChunks length.toNat avail) ∧
      (recvChunks length.toNat avail).sum = length.toNat ∧
      ∀ c ∈ recvChunks length.toNat avail, 0 < c ∧ c ≤ chunkLimit) := by
  constructor
  · intro length avail h
    simp only [rawUpload, if_pos h]
  · intro length avail hpos hav
    have hneg : ¬(length ≤ 0) := by omega
    refine ⟨by simp only [rawUpload, if_neg hneg], recvChunks_sum_eq _ _ hav,
      recvChunks_mem_bounds _ _⟩

/-- Witness for C9: length 0 is rejected; length 5 with 5 available bytes is
written as exactly one 5-byte chunk. -/
theorem raw_upload_exact_bytes_witness :
    rawUpload 0 7 = RawOutcome.badRequest ∧
    rawUpload 5 5 = RawOutcome.received (recvChunks 5 5) ∧
    (recvChunks 5 5).sum = 5 ∧
    recvChunks 5 5 = [5] := by
  have h := raw_upload_exact_bytes
  have h2 := h.2 5 5 (by decide) (by decide)
  have h5 : recvChunks 5 5 = [5] := by
    rw [recvChunks]
    norm_num [chunkLimit]
    rw [recvChunks]
    simp
  exact ⟨h.1 0 7 (by decide), h2.1, h2.2.1, h5⟩
